import Mathlib

/-!
Verification development for the RiotPlan VS Code extension's HTTP MCP client
(`src/mcp-client.ts`).  The protocol client (transport, session manager,
request dispatcher and SSE push channel) is shallowly embedded: JavaScript
strings become Lean `String`s whose operations are re-implemented on the
underlying character lists so that everything reduces in the kernel, the
HTTP exchanges performed by `httpPost` are supplied by an oracle (a list of
prearranged outcomes consumed in order), and the mutable fields of the
`HttpMcpClient` class become an explicit `ClientState` record threaded
through the operations.  Every call additionally emits a trace of observable
events (POSTs issued, recovery cycles run, SSE connection starts) over which
the temporal properties are stated.
-/

namespace RiotPlan

/-! ## JavaScript string primitives

The client manipulates JS strings with `split('\n')`, `startsWith`,
`substring`, `trim`, `toLowerCase` and `includes`.  These are modelled on the
character list of a Lean `String` by structurally recursive functions (the
core library versions of some of these use well-founded recursion and do not
reduce in the kernel). -/

/-- Whether `needle` occurs at the start of `hay` (character lists). -/
def leadsWith : List Char → List Char → Bool
  | [], _ => true
  | _ :: _, [] => false
  | a :: as, b :: bs => a = b && leadsWith as bs

/-- Whether `needle` occurs somewhere inside `hay` (character lists). -/
def charsContain (hay needle : List Char) : Bool :=
  match hay with
  | [] => needle.isEmpty
  | _ :: rest => leadsWith needle hay || charsContain rest needle

/-- JS `hay.includes(needle)`. -/
def strIncludes (hay needle : String) : Bool :=
  charsContain hay.data needle.data

/-- JS `s.startsWith(p)`. -/
def jsStartsWith (s p : String) : Bool :=
  leadsWith p.data s.data

/-- JS `s.substring(n)`: drop the first `n` characters. -/
def jsDrop (s : String) (n : Nat) : String :=
  String.mk (s.data.drop n)

/-- JS `s.substring(0, n)`: keep the first `n` characters. -/
def jsTake (s : String) (n : Nat) : String :=
  String.mk (s.data.take n)

/-- The whitespace characters stripped by JS `trim` that can occur here. -/
def isJsWhitespace (c : Char) : Bool :=
  c = ' ' || c = '\t' || c = '\n' || c = '\r'

/-- JS `s.trim()`. -/
def jsTrim (s : String) : String :=
  String.mk (((s.data.dropWhile isJsWhitespace).reverse.dropWhile isJsWhitespace).reverse)

/-- JS `s.toLowerCase()` (ASCII, which is all the client compares). -/
def jsToLower (s : String) : String :=
  String.mk (s.data.map Char.toLower)

/-- Splitting a character list at newline characters; always nonempty. -/
def splitLinesChars : List Char → List (List Char)
  | [] => [[]]
  | c :: rest =>
    match splitLinesChars rest with
    | [] => [[]]
    | l :: ls => if c = '\n' then [] :: l :: ls else (c :: l) :: ls

/-- JS `s.split('\n')`. -/
def jsSplitLines (s : String) : List String :=
  (splitLinesChars s.data).map String.mk

/-- JS `s || d` for strings: the empty string is falsy. -/
def jsStringOr (s d : String) : String :=
  if s = "" then d else s

/-! ## A model of `JSON.parse`

`JSON.parse` is the JS builtin; the client feeds it the SSE `data:` payloads
and the POST bodies.  Modelled from the spec: a recursive-descent parser for
the JSON fragment these envelopes use (objects, arrays, strings with the
basic escapes, integers, booleans, null; leading/trailing whitespace
ignored, trailing garbage rejected). -/

/-- JSON values. -/
inductive Json where
  | null
  | bool (b : Bool)
  | num (n : Int)
  | str (s : String)
  | arr (elems : List Json)
  | obj (fields : List (String × Json))

/-- The opening-brace character (object start). -/
def obraceChar : Char := Char.ofNat 123

/-- The closing-brace character (object end). -/
def cbraceChar : Char := Char.ofNat 125

/-- Skip JSON insignificant whitespace. -/
def skipWs : List Char → List Char
  | c :: rest => if isJsWhitespace c then skipWs rest else c :: rest
  | [] => []

/-- Translate a JSON string escape character. -/
def escChar (c : Char) : String :=
  if c = 'n' then "\n"
  else if c = 't' then "\t"
  else if c = 'r' then "\r"
  else String.mk [c]

/-- Parse the remainder of a JSON string literal (after the opening quote). -/
def parseStringRest : List Char → Option (String × List Char)
  | [] => none
  | c :: rest =>
    if c = '"' then some ("", rest)
    else if c = '\\' then
      match rest with
      | [] => none
      | e :: rest2 =>
        match parseStringRest rest2 with
        | some (s, r) => some (escChar e ++ s, r)
        | none => none
    else
      match parseStringRest rest with
      | some (s, r) => some (String.mk [c] ++ s, r)
      | none => none

/-- Parse a run of decimal digits. -/
def parseDigits : List Char → Nat → List Char → Option (Nat × List Char)
  | [], _, _ => none
  | c :: rest, acc, orig =>
    if c.isDigit then
      let acc2 := acc * 10 + (c.toNat - 48)
      match rest with
      | [] => some (acc2, [])
      | d :: _ => if d.isDigit then parseDigits rest acc2 orig else some (acc2, rest)
    else none

mutual

/-- Parse one JSON value; `fuel` bounds the nesting depth. -/
def parseJsonVal : Nat → List Char → Option (Json × List Char)
  | 0, _ => none
  | fuel + 1, cs =>
    match skipWs cs with
    | [] => none
    | c :: rest =>
      if c = 'n' then
        match rest with
        | 'u' :: 'l' :: 'l' :: r => some (.null, r)
        | _ => none
      else if c = 't' then
        match rest with
        | 'r' :: 'u' :: 'e' :: r => some (.bool true, r)
        | _ => none
      else if c = 'f' then
        match rest with
        | 'a' :: 'l' :: 's' :: 'e' :: r => some (.bool false, r)
        | _ => none
      else if c = '"' then
        match parseStringRest rest with
        | some (s, r) => some (.str s, r)
        | none => none
      else if c = '-' then
        match parseDigits rest 0 rest with
        | some (n, r) => some (.num (-(n : Int)), r)
        | none => none
      else if c.isDigit then
        match parseDigits (c :: rest) 0 (c :: rest) with
        | some (n, r) => some (.num (n : Int), r)
        | none => none
      else if c = '[' then
        match skipWs rest with
        | ']' :: r => some (.arr [], r)
        | cs2 => match parseJsonElems fuel cs2 with
          | some (es, r) => some (.arr es, r)
          | none => none
      else if c = obraceChar then
        match skipWs rest with
        | d :: r => if d = cbraceChar then some (.obj [], r) else
            match parseJsonFields fuel (d :: r) with
            | some (fs, r2) => some (.obj fs, r2)
            | none => none
        | [] => none
      else none

/-- Parse the elements of a (nonempty) JSON array, up to and including `]`. -/
def parseJsonElems : Nat → List Char → Option (List Json × List Char)
  | 0, _ => none
  | fuel + 1, cs =>
    match parseJsonVal fuel cs with
    | some (v, r) =>
      match skipWs r with
      | ',' :: r2 =>
        match parseJsonElems fuel r2 with
        | some (es, r3) => some (v :: es, r3)
        | none => none
      | ']' :: r2 => some ([v], r2)
      | _ => none
    | none => none

/-- Parse the fields of a (nonempty) JSON object, up to and including the
closing brace. -/
def parseJsonFields : Nat → List Char → Option (List (String × Json) × List Char)
  | 0, _ => none
  | fuel + 1, cs =>
    match skipWs cs with
    | '"' :: rest =>
      match parseStringRest rest with
      | some (k, r) =>
        match skipWs r with
        | ':' :: r2 =>
          match parseJsonVal fuel r2 with
          | some (v, r3) =>
            match skipWs r3 with
            | ',' :: r4 =>
              match parseJsonFields fuel r4 with
              | some (fs, r5) => some ((k, v) :: fs, r5)
              | none => none
            | d :: r4 =>
              if d = cbraceChar then some ([(k, v)], r4) else none
            | [] => none
          | none => none
        | _ => none
      | none => none
    | _ => none

end

/-- Modelled from the spec: `JSON.parse` on the JSON fragment used by the
MCP envelopes.  Returns `none` where the builtin would throw a
`SyntaxError`. -/
def jsonParse (s : String) : Option Json :=
  match parseJsonVal (s.data.length + 1) s.data with
  | some (v, rest) => if (skipWs rest).isEmpty then some v else none
  | none => none

/-- Look a key up in a parsed JSON object. -/
def jsonGet (v : Json) (key : String) : Option Json :=
  match v with
  | .obj fields =>
    match fields.find? (fun kv => kv.1 = key) with
    | some kv => some kv.2
    | none => none
  | _ => none

/-! ## SSE body parsing (`parseSSEResponse`, lines 145-156, and the payload
extraction of `handleSSEEvent`, lines 805-811) -/

/-- The `data:` lines collected by `parseSSEResponse` (the `for` loop of
lines 146-151): each line of the body that starts with `data:` contributes
`line.substring(5).trim()`, in order. -/
def sseResponseDataLines (sseText : String) : List String :=
  (jsSplitLines sseText).foldl
    (fun acc line =>
      if jsStartsWith line "data:" then acc ++ [jsTrim (jsDrop line 5)] else acc)
    []

/-- Model of `parseSSEResponse` (lines 145-156): join the collected `data:` payload
fragments and `JSON.parse` the result; throws if no `data:` line is present
or if the joined payload is not valid JSON. -/
def parseSSEResponse (sseText : String) : Except String Json :=
  let dataLines := sseResponseDataLines sseText
  if dataLines.length = 0 then
    .error ("No data lines found in SSE response: " ++ jsTake sseText 200)
  else
    match jsonParse (String.join dataLines) with
    | some v => .ok v
    | none => .error "Failed to parse response"

/-- The `dataPayload` accumulated by `handleSSEEvent` (lines 806-811):
string concatenation of `line.substring(5).trim()` over the `data:` lines of
one SSE frame. -/
def handleSSEEventDataPayload (eventText : String) : String :=
  (jsSplitLines eventText).foldl
    (fun acc line =>
      if jsStartsWith line "data:" then acc ++ jsTrim (jsDrop line 5) else acc)
    ""

/-- Specification-level description of the extraction both SSE parsers
perform: the whitespace-trimmed remainders of the `data:` lines, in order. -/
def trimmedDataRemainders (s : String) : List String :=
  (jsSplitLines s).filterMap
    (fun line =>
      if jsStartsWith line "data:" then some (jsTrim (jsDrop line 5)) else none)

/-- The extraction as the specification words it, without the per-line trim:
the raw remainders of the `data:` lines. -/
def rawDataRemainders (s : String) : List String :=
  (jsSplitLines s).filterMap
    (fun line =>
      if jsStartsWith line "data:" then some (jsDrop line 5) else none)

/-! ## The client model

The mutable fields of `HttpMcpClient` (lines 40-46) become `ClientState`.
The outcome of each HTTP POST round-trip performed by `httpPost`
(lines 158-215) is supplied by an oracle list consumed in order: either the
returned promise rejects with an error message (non-2xx status, unparsable
body, socket failure), or it resolves with the value of the
`mcp-session-id` response header and the parsed JSON-RPC body.  Response
bodies are modelled at the level the dispatcher inspects them: a JSON-RPC
`error.message`, or a `result` restricted to the fields `getToolErrorText`
reads (`isError` and `content`). -/

/-- One element of a tool-call `result.content` array, restricted to what
`getToolErrorText` reads: its `type` tag and its `text` field (`some` when
the field is a string, `none` otherwise). -/
structure ContentItem where
  type : String
  text : Option String
deriving Repr, DecidableEq

/-- A JSON-RPC `result` payload as inspected by the dispatcher. -/
structure McpResult where
  isError : Bool
  content : List ContentItem
deriving Repr, DecidableEq

/-- A `result: {}` payload. -/
def emptyResult : McpResult := ⟨false, []⟩

/-- The parsed body of a resolved POST: a `result` or a JSON-RPC `error`
(carrying its `message`). -/
inductive McpData where
  | result (r : McpResult)
  | error (message : String)
deriving Repr, DecidableEq

/-- Outcome of one `httpPost` round-trip, supplied by the oracle. -/
inductive PostOutcome where
  | reject (message : String)
  | ok (sessionHeader : Option String) (data : McpData)
deriving Repr, DecidableEq

/-- Request ids: `sendRequestInternal` generates pseudo-random ids (line 76),
the handshake uses the fixed id `init-1` (line 121), and notifications carry
a null id (line 292).  The pseudo-random ids are collapsed into one token:
no claim inspects their value. -/
inductive ReqId where
  | rand
  | init1
  | nullId
deriving Repr, DecidableEq

/-- Request params are opaque to the client; they are modelled as strings. -/
def Params := String
deriving instance Repr, DecidableEq for Params

/-- The fixed params object of the `initialize` handshake (lines 123-127),
as an opaque token. -/
def initializeParams : Params := "protocolVersion 2024-11-05; capabilities; clientInfo riotplan-vscode 1.0.0"

/-- The empty-object params sent with `notifications/initialized`. -/
def emptyObjectParams : Params := "empty object"

/-- Observable events of one client operation. -/
inductive Event where
  | post (id : ReqId) (method : String) (params : Params)
  | recovery
  | sseStart
deriving Repr, DecidableEq

/-- The mutable state of `HttpMcpClient` (lines 41-46), plus the pending
reconnect timer scheduled by the SSE `end` handler (lines 783-787).  The
notification-handler registry keeps only identities `(method, token)`; the
recovery-callback list is elided (invoking it does not change this state). -/
structure ClientState where
  sessionId : Option String
  initialized : Bool
  sseConnection : Bool
  recoveringSession : Bool
  notificationHandlers : List (String × Nat)
  reconnectTimerPending : Bool
deriving Repr, DecidableEq

/-- A freshly constructed client (constructor, line 48). -/
def freshClient : ClientState :=
  ⟨none, false, false, false, [], false⟩

/-- An initialized client with a live session, SSE connection and one
registered notification handler. -/
def liveClientExample : ClientState :=
  ⟨some "abc123", true, true, false, [("notifications/resources/updated", 0)], false⟩

/-- The result/state/remaining-oracle/trace of one modelled operation. -/
structure StepOut (ρ : Type) where
  result : ρ
  state : ClientState
  oracle : List PostOutcome
  trace : List Event
deriving Repr, DecidableEq

/-- Result of a request-returning operation. -/
inductive CallResult where
  | ok (value : McpResult)
  | err (message : String)
deriving Repr, DecidableEq

/-- Result of a `Promise<void>`-returning operation. -/
inductive UnitResult where
  | ok
  | err (message : String)
deriving Repr, DecidableEq

/-- Prefix a trace onto an operation's output. -/
def StepOut.withTrace {ρ : Type} (pre : List Event) (out : StepOut ρ) : StepOut ρ :=
  ⟨out.result, out.state, out.oracle, pre ++ out.trace⟩

/-- Model of `getToolErrorText` (lines 29-38). -/
def getToolErrorText (result : Option McpResult) : Option String :=
  match result with
  | none => none
  | some r =>
    if !r.isError then none
    else
      match r.content.head? with
      | some first =>
        if first.type = "text" then
          match first.text with
          | some t => if jsTrim t ≠ "" then some t else some "MCP tool returned an error"
          | none => some "MCP tool returned an error"
        else some "MCP tool returned an error"
      | none => some "MCP tool returned an error"

/-- Model of `isSessionError` (lines 263-269): a thrown error whose message includes
`HTTP 404`, or a JSON-RPC error message containing `session not found`
case-insensitively. -/
def isSessionError (error : Option String) (message : Option String) : Bool :=
  if (match error with | some m => strIncludes m "HTTP 404" | none => false) then true
  else strIncludes (jsToLower (message.getD "")) "session not found"

/-- Model of `httpPost` (lines 158-215): consume the next oracle outcome and record
the POST in the trace.  An exhausted oracle behaves as a socket failure. -/
def httpPost (oracle : List PostOutcome) (id : ReqId) (method : String) (params : Params) :
    Except String (Option String × McpData) × List PostOutcome × List Event :=
  match oracle with
  | [] => (.error "socket hang up", [], [.post id method params])
  | .reject m :: rest => (.error m, rest, [.post id method params])
  | .ok hdr dat :: rest => (.ok (hdr, dat), rest, [.post id method params])

/-- Model of `stopSSEConnection` (lines 798-803). -/
def stopSSEConnection (st : ClientState) : ClientState :=
  { st with sseConnection := false }

/-- Model of `startSSEConnection` (lines 744-796), at the state level: a no-op without
a session id; otherwise any previous connection is replaced by a live one and
an `sseStart` event records the connection attempt. -/
def startSSEConnection (st : ClientState) : ClientState × List Event :=
  if st.sessionId.isNone then (st, [])
  else ({ stopSSEConnection st with sseConnection := true }, [.sseStart])

/-- The session-header capture of `sendRequestInternal` (lines 84-93): a
header value always replaces the held session id, and the very first one also
starts the SSE connection. -/
def captureSession (st : ClientState) (hdr : Option String) : ClientState × List Event :=
  match hdr with
  | none => (st, [])
  | some v =>
    if st.sessionId.isNone then startSSEConnection { st with sessionId := some v }
    else ({ st with sessionId := some v }, [])

/-- The session-header capture of `initialize` (lines 132-135): a header
value is stored and the SSE connection is (re)started unconditionally. -/
def initCaptureSession (st : ClientState) (hdr : Option String) : ClientState × List Event :=
  match hdr with
  | none => (st, [])
  | some v => startSSEConnection { st with sessionId := some v }

/-- Model of `sendNotification` (lines 289-297): POST an envelope with a null id and
discard the response entirely — neither the body nor the headers are
inspected, so the state is unchanged; only a rejected POST propagates. -/
def sendNotification (st : ClientState) (oracle : List PostOutcome)
    (method : String) (params : Params) : StepOut UnitResult :=
  match httpPost oracle .nullId method params with
  | (.error m, rest, tr) => ⟨.err m, st, rest, tr⟩
  | (.ok _, rest, tr) => ⟨.ok, st, rest, tr⟩

/-- Model of `initialize` (lines 118-143): POST the handshake, capture the session
header (before the error check), fail on a JSON-RPC error, otherwise set the
initialized flag and await the `notifications/initialized` notification,
whose failure propagates. -/
def initializeClient (st : ClientState) (oracle : List PostOutcome) : StepOut UnitResult :=
  match httpPost oracle .init1 "initialize" initializeParams with
  | (.error m, rest, tr) => ⟨.err m, st, rest, tr⟩
  | (.ok (hdr, dat), rest, tr) =>
    let cap := initCaptureSession st hdr
    match dat with
    | .error msg => ⟨.err ("MCP initialization failed: " ++ msg), cap.1, rest, tr ++ cap.2⟩
    | .result _ =>
      let st2 := { cap.1 with initialized := true }
      let notif := sendNotification st2 rest "notifications/initialized" emptyObjectParams
      match notif.result with
      | .err m => ⟨.err m, notif.state, notif.oracle, tr ++ cap.2 ++ notif.trace⟩
      | .ok => ⟨.ok, notif.state, notif.oracle, tr ++ cap.2 ++ notif.trace⟩

/-- Model of `recoverSession` (lines 271-287): re-entrant triggers are a no-op; a real
recovery clears the session, resets the initialized flag, tears down the SSE
connection, re-runs the handshake and finally clears the in-progress flag on
every exit path.  The recovery-listener invocations do not touch this state
and are elided.  A `recovery` event records the cycle. -/
def recoverSession (st : ClientState) (oracle : List PostOutcome) : StepOut UnitResult :=
  if st.recoveringSession then ⟨.ok, st, oracle, []⟩
  else
    let st1 := stopSSEConnection
      { st with recoveringSession := true, sessionId := none, initialized := false }
    let out := initializeClient st1 oracle
    ⟨out.result, { out.state with recoveringSession := false }, out.oracle, .recovery :: out.trace⟩

/-- The `catch` block of `sendRequestInternal` (lines 109-115), parameterized
by the retry continuation: `retryCall = some f` models
`retryOnSessionError = true` with `f` standing for
`sendRequestInternal(method, params, false)`; `none` models a false flag.  A
failure of `recoverSession` here propagates to the caller (it is outside the
`try`). -/
def catchBlock (retryCall : Option (ClientState → List PostOutcome → StepOut CallResult))
    (m : String) (st : ClientState) (oracle : List PostOutcome) : StepOut CallResult :=
  match retryCall, isSessionError (some m) none with
  | some f, true =>
    let rcv := recoverSession st oracle
    match rcv.result with
    | .ok => (f rcv.state rcv.oracle).withTrace rcv.trace
    | .err m2 => ⟨.err m2, rcv.state, rcv.oracle, rcv.trace⟩
  | _, _ => ⟨.err m, st, oracle, []⟩

/-- The `try` block of `sendRequestInternal` (lines 81-116): POST the
envelope, capture the session header, then unwrap.  A JSON-RPC session error
triggers recovery inside the `try` (a recovery failure there falls into the
`catch`, which may classify it again); a recovery success re-issues via the
continuation, whose own failure is NOT re-caught (the promise is returned
without `await`).  Thrown errors — the JSON-RPC error message or the
tool-call error text — fall into the `catch` block. -/
def sendRequestCore (method : String) (params : Params)
    (retryCall : Option (ClientState → List PostOutcome → StepOut CallResult))
    (st : ClientState) (oracle : List PostOutcome) : StepOut CallResult :=
  match httpPost oracle .rand method params with
  | (.error m, rest, tr) => (catchBlock retryCall m st rest).withTrace tr
  | (.ok (hdr, dat), rest, tr) =>
    let cap := captureSession st hdr
    match dat with
    | .error msg =>
      match retryCall, isSessionError none (some msg) with
      | some f, true =>
        let rcv := recoverSession cap.1 rest
        match rcv.result with
        | .ok => (f rcv.state rcv.oracle).withTrace (tr ++ cap.2 ++ rcv.trace)
        | .err m2 =>
          (catchBlock retryCall m2 rcv.state rcv.oracle).withTrace (tr ++ cap.2 ++ rcv.trace)
      | _, _ =>
        (catchBlock retryCall (jsStringOr msg "MCP request failed") cap.1 rest).withTrace (tr ++ cap.2)
    | .result res =>
      match getToolErrorText (some res) with
      | some t => (catchBlock retryCall t cap.1 rest).withTrace (tr ++ cap.2)
      | none => ⟨.ok res, cap.1, rest, tr ++ cap.2⟩

/-- The body of `sendRequestInternal` (lines 68-116): the handshake is run
first when needed (its failure propagates, it is outside the `try`), then the
`try`/`catch` core. -/
def sendRequestBody (method : String) (params : Params)
    (retryCall : Option (ClientState → List PostOutcome → StepOut CallResult))
    (st : ClientState) (oracle : List PostOutcome) : StepOut CallResult :=
  if !st.initialized && method ≠ "initialize" then
    let hs := initializeClient st oracle
    match hs.result with
    | .err m => ⟨.err m, hs.state, hs.oracle, hs.trace⟩
    | .ok => (sendRequestCore method params retryCall hs.state hs.oracle).withTrace hs.trace
  else sendRequestCore method params retryCall st oracle

/-- Model of `sendRequestInternal` (lines 68-116).  The boolean `retryOnSessionError`
is tied to the continuation: with `true` the retry continuation is one more
run of the body with the flag `false`; with `false` there is none. -/
def sendRequestInternal (method : String) (params : Params) (retryOnSessionError : Bool)
    (st : ClientState) (oracle : List PostOutcome) : StepOut CallResult :=
  if retryOnSessionError then
    sendRequestBody method params (some (sendRequestBody method params none)) st oracle
  else
    sendRequestBody method params none st oracle

/-- Model of `sendRequest` (lines 64-66). -/
def sendRequest (method : String) (params : Params)
    (st : ClientState) (oracle : List PostOutcome) : StepOut CallResult :=
  sendRequestInternal method params true st oracle

/-- Run a sequence of `sendRequest` calls, threading state and oracle. -/
def runRequests (st : ClientState) (oracle : List PostOutcome) :
    List (String × Params) → ClientState × List PostOutcome × List Event
  | [] => (st, oracle, [])
  | (m, p) :: rest =>
    let out := sendRequest m p st oracle
    let next := runRequests out.state out.oracle rest
    (next.1, next.2.1, out.trace ++ next.2.2)

/-! ## SSE channel lifecycle transitions (for the disposal claims) -/

/-- The `res.on('end')` handler of the SSE stream (lines 781-788): the
connection reference is cleared and the 3-second reconnect timer is
scheduled. -/
def sseStreamEnd (st : ClientState) : ClientState :=
  { st with sseConnection := false, reconnectTimerPending := true }

/-- The reconnect-timer callback (lines 783-787): when it fires it checks
only `this.sessionId` before calling `startSSEConnection`. -/
def reconnectTimerFired (st : ClientState) : ClientState × List Event :=
  let st1 := { st with reconnectTimerPending := false }
  if st1.sessionId.isSome then startSSEConnection st1 else (st1, [])

/-- Model of `dispose` (lines 830-833): stop the SSE connection and clear the
notification handlers.  Neither the session id nor a pending reconnect timer
is touched. -/
def dispose (st : ClientState) : ClientState :=
  { stopSSEConnection st with notificationHandlers := [] }

/-! ## Raw transport timeout (`httpRequestRaw`, lines 217-261) -/

/-- The timeout applied by `httpRequestRaw` (line 253):
`options?.timeoutMs ?? 30000`, in milliseconds. -/
def httpRequestRawTimeout (timeoutMs : Option Nat) : Nat :=
  timeoutMs.getD 30000

/-- The explicit `timeoutMs` passed by `downloadPlanFile` (line 362). -/
def downloadPlanFileTimeoutMs : Nat := 120000

/-- The explicit `timeoutMs` passed by `uploadPlanFile` (line 388). -/
def uploadPlanFileTimeoutMs : Nat := 120000

/-! ## Trace accounting -/

/-- Number of recovery cycles recorded in a trace. -/
def countRecoveries : List Event → Nat
  | [] => 0
  | .recovery :: tr => countRecoveries tr + 1
  | _ :: tr => countRecoveries tr

/-- Number of POSTs of a given id/method/params recorded in a trace. -/
def countPosts : List Event → ReqId → String → Params → Nat
  | [], _, _, _ => 0
  | .post i m p :: tr, id, mm, pp =>
    (if i = id ∧ m = mm ∧ p = pp then 1 else 0) + countPosts tr id mm pp
  | _ :: tr, id, mm, pp => countPosts tr id mm pp

/-- Number of handshake (`init-1`) POSTs recorded in a trace. -/
def countInitPosts : List Event → Nat
  | [] => 0
  | .post .init1 _ _ :: tr => countInitPosts tr + 1
  | _ :: tr => countInitPosts tr

/-- A response outcome bearing the session-error signature of the claims: a
transport rejection mentioning `HTTP 404`, or a JSON-RPC error whose message
contains `session not found` case-insensitively. -/
def sessionErrorOutcome : PostOutcome → Bool
  | .reject m => strIncludes m "HTTP 404"
  | .ok _ (.error msg) => strIncludes (jsToLower msg) "session not found"
  | .ok _ (.result _) => false

/-- The message with which the dispatcher (without retry) surfaces a failing
outcome: the rejection message, or the JSON-RPC error message with the
generic fallback. -/
def outcomeFailureMessage : PostOutcome → String
  | .reject m => m
  | .ok _ (.error msg) => jsStringOr msg "MCP request failed"
  | .ok _ (.result r) => (getToolErrorText (some r)).getD ""

/-- A fully successful outcome: resolved, with a `result` payload that does
not follow the tool-call error convention. -/
def healthyOutcome : PostOutcome → Bool
  | .ok _ (.result r) => (getToolErrorText (some r)).isNone
  | _ => false

/-- Concatenation of a list of strings. -/
def concatStrings : List String → String
  | [] => ""
  | s :: rest => s ++ concatStrings rest

/-! ## General lemmas -/

theorem foldl_guarded_append_list {α β : Type} (P : α → Bool) (f : α → β) :
    ∀ (ls : List α) (acc : List β),
      ls.foldl (fun a l => if P l then a ++ [f l] else a) acc
        = acc ++ ls.filterMap (fun l => if P l then some (f l) else none)
  | [], acc => by simp
  | l :: ls, acc => by
    by_cases h : P l <;>
      simp [List.foldl_cons, h, foldl_guarded_append_list P f ls]

theorem foldl_guarded_append_str (P : String → Bool) (f : String → String) :
    ∀ (ls : List String) (acc : String),
      ls.foldl (fun a l => if P l then a ++ f l else a) acc
        = acc ++ concatStrings (ls.filterMap (fun l => if P l then some (f l) else none))
  | [], acc => by simp [concatStrings]
  | l :: ls, acc => by
    by_cases h : P l <;>
      simp [List.foldl_cons, h, foldl_guarded_append_str P f ls, concatStrings,
        String.append_assoc]

theorem join_eq_concatStrings_aux :
    ∀ (ls : List String) (acc : String),
      ls.foldl (fun a b => a ++ b) acc = acc ++ concatStrings ls
  | [], acc => by simp [concatStrings]
  | l :: ls, acc => by
    simp [List.foldl_cons, join_eq_concatStrings_aux ls, concatStrings, String.append_assoc]

theorem join_eq_concatStrings (ls : List String) : String.join ls = concatStrings ls := by
  have h := join_eq_concatStrings_aux ls ""
  simpa [String.join] using h

theorem sseResponseDataLines_eq_trimmed (s : String) :
    sseResponseDataLines s = trimmedDataRemainders s := by
  simpa [sseResponseDataLines, trimmedDataRemainders] using
    foldl_guarded_append_list (fun line => jsStartsWith line "data:")
      (fun line => jsTrim (jsDrop line 5)) (jsSplitLines s) []

theorem handleSSEEventDataPayload_eq_trimmed (s : String) :
    handleSSEEventDataPayload s = concatStrings (trimmedDataRemainders s) := by
  simpa [handleSSEEventDataPayload, trimmedDataRemainders] using
    foldl_guarded_append_str (fun line => jsStartsWith line "data:")
      (fun line => jsTrim (jsDrop line 5)) (jsSplitLines s) ""

/-! ## State-capture lemmas -/

theorem startSSEConnection_initialized (st : ClientState) :
    (startSSEConnection st).1.initialized = st.initialized := by
  simp only [startSSEConnection, stopSSEConnection]
  split <;> rfl

theorem startSSEConnection_recovering (st : ClientState) :
    (startSSEConnection st).1.recoveringSession = st.recoveringSession := by
  simp only [startSSEConnection, stopSSEConnection]
  split <;> rfl

theorem startSSEConnection_sessionId (st : ClientState) :
    (startSSEConnection st).1.sessionId = st.sessionId := by
  simp only [startSSEConnection, stopSSEConnection]
  split <;> rfl

theorem captureSession_initialized (st : ClientState) (hdr : Option String) :
    (captureSession st hdr).1.initialized = st.initialized := by
  cases hdr with
  | none => rfl
  | some v =>
    simp only [captureSession]
    split
    · rw [startSSEConnection_initialized]
    · rfl

theorem captureSession_recovering (st : ClientState) (hdr : Option String) :
    (captureSession st hdr).1.recoveringSession = st.recoveringSession := by
  cases hdr with
  | none => rfl
  | some v =>
    simp only [captureSession]
    split
    · rw [startSSEConnection_recovering]
    · rfl

theorem captureSession_sessionId_some (st : ClientState) (v : String) :
    (captureSession st (some v)).1.sessionId = some v := by
  simp only [captureSession]
  split
  · rw [startSSEConnection_sessionId]
  · rfl

theorem startSSEConnection_trace (st : ClientState) :
    ∀ e ∈ (startSSEConnection st).2, e = Event.sseStart := by
  simp only [startSSEConnection, stopSSEConnection]
  split <;> simp

theorem captureSession_trace (st : ClientState) (hdr : Option String) :
    ∀ e ∈ (captureSession st hdr).2, e = Event.sseStart := by
  cases hdr with
  | none => simp [captureSession]
  | some v =>
    simp only [captureSession]
    split
    · exact startSSEConnection_trace _
    · simp

theorem initCaptureSession_trace (st : ClientState) (hdr : Option String) :
    ∀ e ∈ (initCaptureSession st hdr).2, e = Event.sseStart := by
  cases hdr with
  | none => simp [initCaptureSession]
  | some v => exact startSSEConnection_trace _

theorem initCaptureSession_sessionId_some (st : ClientState) (v : String) :
    (initCaptureSession st (some v)).1.sessionId = some v := by
  simp only [initCaptureSession]
  rw [startSSEConnection_sessionId]

@[simp] theorem countRecoveries_append (a b : List Event) :
    countRecoveries (a ++ b) = countRecoveries a + countRecoveries b := by
  induction a with
  | nil => simp [countRecoveries]
  | cons e tr ih => cases e <;> simp [countRecoveries, ih] <;> omega

@[simp] theorem countPosts_append (a b : List Event) (id : ReqId) (m : String) (p : Params) :
    countPosts (a ++ b) id m p = countPosts a id m p + countPosts b id m p := by
  induction a with
  | nil => simp [countPosts]
  | cons e tr ih => cases e <;> simp [countPosts, ih] <;> omega

@[simp] theorem countInitPosts_append (a b : List Event) :
    countInitPosts (a ++ b) = countInitPosts a + countInitPosts b := by
  induction a with
  | nil => simp [countInitPosts]
  | cons e tr ih =>
    cases e with
    | post i mm pp => cases i <;> simp [countInitPosts, ih] <;> omega
    | recovery => simp [countInitPosts, ih]
    | sseStart => simp [countInitPosts, ih]

theorem countRecoveries_sseStarts {tr : List Event}
    (h : ∀ e ∈ tr, e = Event.sseStart) : countRecoveries tr = 0 := by
  induction tr with
  | nil => rfl
  | cons e tr ih =>
    rw [h e (by simp)]
    simp only [countRecoveries]
    exact ih (fun x hx => h x (by simp [hx]))

theorem countPosts_sseStarts {tr : List Event}
    (h : ∀ e ∈ tr, e = Event.sseStart) (id : ReqId) (m : String) (p : Params) :
    countPosts tr id m p = 0 := by
  induction tr with
  | nil => rfl
  | cons e tr ih =>
    rw [h e (by simp)]
    simp only [countPosts]
    exact ih (fun x hx => h x (by simp [hx]))

theorem countInitPosts_sseStarts {tr : List Event}
    (h : ∀ e ∈ tr, e = Event.sseStart) : countInitPosts tr = 0 := by
  induction tr with
  | nil => rfl
  | cons e tr ih =>
    rw [h e (by simp)]
    simp only [countInitPosts]
    exact ih (fun x hx => h x (by simp [hx]))

/-! ## Operation-level lemmas -/

theorem sendNotification_state (st : ClientState) (oracle : List PostOutcome)
    (m : String) (p : Params) : (sendNotification st oracle m p).state = st := by
  match oracle with
  | [] => rfl
  | .reject s :: rest => rfl
  | .ok hdr dat :: rest => rfl

theorem initializeClient_ok (st : ClientState) (hdrI : Option String) (rI : McpResult)
    (hdrN : Option String) (dN : McpData) (rest : List PostOutcome) :
    initializeClient st (.ok hdrI (.result rI) :: .ok hdrN dN :: rest) =
      ⟨.ok, { (initCaptureSession st hdrI).1 with initialized := true }, rest,
        .post .init1 "initialize" initializeParams :: (initCaptureSession st hdrI).2
          ++ [.post .nullId "notifications/initialized" emptyObjectParams]⟩ := by
  simp [initializeClient, httpPost, sendNotification]

theorem initializeClient_notifFail (st : ClientState) (hdrI : Option String) (rI : McpResult)
    (m : String) (rest : List PostOutcome) :
    initializeClient st (.ok hdrI (.result rI) :: .reject m :: rest) =
      ⟨.err m, { (initCaptureSession st hdrI).1 with initialized := true }, rest,
        .post .init1 "initialize" initializeParams :: (initCaptureSession st hdrI).2
          ++ [.post .nullId "notifications/initialized" emptyObjectParams]⟩ := by
  simp [initializeClient, httpPost, sendNotification]

theorem recoverSession_ok (st : ClientState) (hdr2 : Option String) (r2 : McpResult)
    (hdrN : Option String) (dN : McpData) (rest : List PostOutcome)
    (hrec : st.recoveringSession = false) :
    (recoverSession st (.ok hdr2 (.result r2) :: .ok hdrN dN :: rest)).result = .ok ∧
    (recoverSession st (.ok hdr2 (.result r2) :: .ok hdrN dN :: rest)).state.initialized
      = true ∧
    (recoverSession st (.ok hdr2 (.result r2) :: .ok hdrN dN :: rest)).state.recoveringSession
      = false ∧
    (recoverSession st (.ok hdr2 (.result r2) :: .ok hdrN dN :: rest)).oracle = rest ∧
    countRecoveries (recoverSession st (.ok hdr2 (.result r2) :: .ok hdrN dN :: rest)).trace
      = 1 ∧
    (∀ m p, countPosts (recoverSession st (.ok hdr2 (.result r2) :: .ok hdrN dN :: rest)).trace
      .rand m p = 0) := by
  have hinit := initializeClient_ok
    (stopSSEConnection { st with recoveringSession := true, sessionId := none, initialized := false })
    hdr2 r2 hdrN dN rest
  have htr := initCaptureSession_trace
    (stopSSEConnection { st with recoveringSession := true, sessionId := none, initialized := false })
    hdr2
  refine ⟨?_, ?_, ?_, ?_, ?_, ?_⟩ <;>
    simp [recoverSession, hrec, hinit, countRecoveries, countPosts, countInitPosts,
      countRecoveries_sseStarts htr, countPosts_sseStarts htr]

theorem catchBlock_none (m : String) (st : ClientState) (oracle : List PostOutcome) :
    catchBlock none m st oracle = ⟨.err m, st, oracle, []⟩ := by
  rfl

theorem sendRequestCore_healthy (m : String) (p : Params)
    (retryCall : Option (ClientState → List PostOutcome → StepOut CallResult))
    (st : ClientState) (hdr : Option String) (r : McpResult) (rest : List PostOutcome)
    (hr : getToolErrorText (some r) = none) :
    sendRequestCore m p retryCall st (.ok hdr (.result r) :: rest) =
      ⟨.ok r, (captureSession st hdr).1, rest, .post .rand m p :: (captureSession st hdr).2⟩ := by
  simp [sendRequestCore, httpPost, hr]

theorem sendRequestBody_skip_handshake (m : String) (p : Params)
    (retryCall : Option (ClientState → List PostOutcome → StepOut CallResult))
    (st : ClientState) (oracle : List PostOutcome) (hinit : st.initialized = true) :
    sendRequestBody m p retryCall st oracle = sendRequestCore m p retryCall st oracle := by
  simp [sendRequestBody, hinit]

theorem sendRequestBody_noRetry_fail (m : String) (p : Params) (st : ClientState)
    (o4 : PostOutcome) (rest : List PostOutcome)
    (hinit : st.initialized = true) (h4 : sessionErrorOutcome o4 = true) :
    (sendRequestBody m p none st (o4 :: rest)).result = .err (outcomeFailureMessage o4) ∧
    (sendRequestBody m p none st (o4 :: rest)).oracle = rest ∧
    countRecoveries (sendRequestBody m p none st (o4 :: rest)).trace = 0 ∧
    countPosts (sendRequestBody m p none st (o4 :: rest)).trace .rand m p = 1 := by
  rw [sendRequestBody_skip_handshake m p none st _ hinit]
  match o4 with
  | .reject m4 =>
    refine ⟨?_, ?_, ?_, ?_⟩ <;>
      simp [sendRequestCore, httpPost, catchBlock_none, StepOut.withTrace,
        outcomeFailureMessage, countRecoveries, countPosts]
  | .ok hdr4 (.error msg4) =>
    have htr := captureSession_trace st hdr4
    refine ⟨?_, ?_, ?_, ?_⟩ <;>
      simp [sendRequestCore, httpPost, catchBlock_none, StepOut.withTrace,
        outcomeFailureMessage, countRecoveries, countPosts,
        countRecoveries_sseStarts htr, countPosts_sseStarts htr]
  | .ok hdr4 (.result r4) =>
    simp [sessionErrorOutcome] at h4

theorem strIncludes_empty_false : strIncludes "" "session not found" = false := by decide

theorem isSessionError_not404 (t : String) (h : strIncludes t "HTTP 404" = false) :
    isSessionError (some t) none = false := by
  simpa [isSessionError, h] using strIncludes_empty_false

theorem isSessionError_404 (t : String) (h : strIncludes t "HTTP 404" = true) :
    isSessionError (some t) none = true := by
  simp [isSessionError, h]

theorem isSessionError_sessionNotFound (msg : String)
    (h : strIncludes (jsToLower msg) "session not found" = true) :
    isSessionError none (some msg) = true := by
  simp [isSessionError, h]

theorem catchBlock_not_session
    (retryCall : Option (ClientState → List PostOutcome → StepOut CallResult))
    (m : String) (st : ClientState) (oracle : List PostOutcome)
    (h : isSessionError (some m) none = false) :
    catchBlock retryCall m st oracle = ⟨.err m, st, oracle, []⟩ := by
  cases retryCall <;> simp [catchBlock, h]

theorem catchBlock_retry (f : ClientState → List PostOutcome → StepOut CallResult)
    (m : String) (st : ClientState) (oracle : List PostOutcome)
    (hs : isSessionError (some m) none = true)
    (hrecok : (recoverSession st oracle).result = .ok) :
    catchBlock (some f) m st oracle
      = (f (recoverSession st oracle).state (recoverSession st oracle).oracle).withTrace
          (recoverSession st oracle).trace := by
  simp [catchBlock, hs, hrecok]

theorem sendRequestInternal_true (m : String) (p : Params) (st : ClientState)
    (oracle : List PostOutcome) :
    sendRequestInternal m p true st oracle
      = sendRequestBody m p (some (sendRequestBody m p none)) st oracle := rfl

theorem sendRequestInternal_false (m : String) (p : Params) (st : ClientState)
    (oracle : List PostOutcome) :
    sendRequestInternal m p false st oracle = sendRequestBody m p none st oracle := rfl

theorem freshClient_initialized : freshClient.initialized = false := rfl

theorem healthyOutcome_shape (o : PostOutcome) (h : healthyOutcome o = true) :
    ∃ hdr r, o = .ok hdr (.result r) ∧ getToolErrorText (some r) = none := by
  match o with
  | .ok hdr (.result r) =>
    refine ⟨hdr, r, rfl, ?_⟩
    simpa [healthyOutcome, Option.isNone_iff_eq_none] using h
  | .reject m => simp [healthyOutcome] at h
  | .ok hdr (.error msg) => simp [healthyOutcome] at h

theorem sendRequest_healthy (m : String) (p : Params) (st : ClientState)
    (hdr : Option String) (r : McpResult) (rest : List PostOutcome)
    (hinit : st.initialized = true) (hr : getToolErrorText (some r) = none) :
    sendRequest m p st (.ok hdr (.result r) :: rest)
      = ⟨.ok r, (captureSession st hdr).1, rest,
          .post .rand m p :: (captureSession st hdr).2⟩ := by
  rw [sendRequest, sendRequestInternal_true, sendRequestBody_skip_handshake _ _ _ _ _ hinit,
    sendRequestCore_healthy _ _ _ _ _ _ _ hr]

theorem runRequests_healthy (reqs : List (String × Params)) :
    ∀ (st : ClientState) (oracle : List PostOutcome),
      st.initialized = true → (∀ o ∈ oracle, healthyOutcome o = true) →
      oracle.length = reqs.length →
      countInitPosts (runRequests st oracle reqs).2.2 = 0 := by
  induction reqs with
  | nil =>
    intro st oracle _ _ _
    simp [runRequests, countInitPosts]
  | cons mp reqs ih =>
    intro st oracle hinit hh hlen
    obtain ⟨m, p⟩ := mp
    cases oracle with
    | nil => simp at hlen
    | cons o orest =>
      obtain ⟨hdr, r, rfl, hr⟩ := healthyOutcome_shape o (hh o (by simp))
      have hcapTr := captureSession_trace st hdr
      have ihc := ih (captureSession st hdr).1 orest
        (by rw [captureSession_initialized]; exact hinit)
        (fun x hx => hh x (by simp [hx]))
        (by simpa using hlen)
      simp [runRequests, sendRequest_healthy m p st hdr r orest hinit hr,
        countInitPosts, ihc, countInitPosts_sseStarts hcapTr]

/-! ## Claim theorems -/

/-- Claim C2 (code bug).  The claim says that once `dispose()` has been called
no further SSE reconnect attempt occurs, including from a reconnect delay
timer scheduled before disposal.  The code violates this: starting from a
live client, after the server ends the stream (scheduling the reconnect
timer), `dispose()` stops the connection and clears the handlers but leaves
the session id and the pending timer in place, so when the timer fires it
re-establishes the SSE connection (an `sseStart` attempt) after disposal. -/
theorem dispose_pending_timer_still_reconnects :
    (dispose (sseStreamEnd liveClientExample)).sseConnection = false ∧
    (dispose (sseStreamEnd liveClientExample)).notificationHandlers = [] ∧
    (dispose (sseStreamEnd liveClientExample)).sessionId = some "abc123" ∧
    (dispose (sseStreamEnd liveClientExample)).reconnectTimerPending = true ∧
    (reconnectTimerFired (dispose (sseStreamEnd liveClientExample))).1.sseConnection = true ∧
    (reconnectTimerFired (dispose (sseStreamEnd liveClientExample))).2 = [.sseStart] := by
  refine ⟨rfl, rfl, rfl, rfl, rfl, rfl⟩

/-- Claim C3 (counterexample).  The claim says the held session id equals the
most recently observed `mcp-session-id` header value after *every* call,
including fire-and-forget notifications.  False: a notification response
carrying header `s2` leaves the held id at `s1`, because `sendNotification`
discards the response without reading its headers. -/
theorem notification_response_header_ignored :
    (sendNotification (ClientState.mk (some "s1") true false false [] false)
        [.ok (some "s2") (.result emptyResult)] "notifications/progress" "p").state.sessionId
      = some "s1" ∧
    (some "s1" : Option String) ≠ some "s2" := by
  exact ⟨rfl, by decide⟩

/-- Claim C3 (amended).  After every request dispatched through
`sendRequestInternal` whose response carries the session header, and after
every `initialize` handshake whose response carries it, the held session id
equals that header value (shown on the no-retry path, where the response at
hand is the most recently observed one); fire-and-forget notifications,
however, discard the response entirely and never update the session id or
any other client state. -/
theorem session_header_capture_amended :
    (∀ (st : ClientState) (m : String) (p : Params) (v : String) (dat : McpData)
        (rest : List PostOutcome), st.initialized = true →
      (sendRequestInternal m p false st (.ok (some v) dat :: rest)).state.sessionId = some v) ∧
    (∀ (st : ClientState) (v : String) (dat : McpData) (rest : List PostOutcome),
      (initializeClient st (.ok (some v) dat :: rest)).state.sessionId = some v) ∧
    (∀ (st : ClientState) (oracle : List PostOutcome) (m : String) (p : Params),
      (sendNotification st oracle m p).state = st) := by
  refine ⟨?_, ?_, sendNotification_state⟩
  · intro st m p v dat rest hinit
    rw [sendRequestInternal, if_neg (by simp), sendRequestBody_skip_handshake m p none st _ hinit]
    match dat with
    | .error msg =>
      simp [sendRequestCore, httpPost, catchBlock_none, StepOut.withTrace,
        captureSession_sessionId_some]
    | .result r =>
      cases hg : getToolErrorText (some r) <;>
        simp [sendRequestCore, httpPost, hg, catchBlock_none, StepOut.withTrace,
          captureSession_sessionId_some]
  · intro st v dat rest
    match dat with
    | .error msg =>
      simp [initializeClient, httpPost, initCaptureSession_sessionId_some]
    | .result r =>
      cases rest with
      | nil =>
        simp [initializeClient, httpPost, sendNotification, initCaptureSession_sessionId_some]
      | cons o rest2 =>
        cases o <;>
          simp [initializeClient, httpPost, sendNotification, initCaptureSession_sessionId_some]

/-- Claim C3 witness for the amended theorem's hypothesis. -/
theorem session_header_capture_amended_witness :
    (sendRequestInternal "tools/call" "p" false (ClientState.mk none true false false [] false)
        [.ok (some "abc123") (.result emptyResult)]).state.sessionId = some "abc123" :=
  session_header_capture_amended.1 (ClientState.mk none true false false [] false)
    "tools/call" "p" "abc123" (.result emptyResult) [] rfl

/-- Claim C4 (counterexample).  The claim says a failing
`notifications/initialized` POST does not cause the initialize operation (or
the request that triggered it) to fail.  False: `initialize` awaits
`sendNotification`, so a rejected notification POST rejects `initialize()`
and the business request that triggered the handshake, even though the
`initialized` flag was already set. -/
theorem initialized_notification_failure_fails_handshake :
    (initializeClient freshClient
        [.ok (some "sess") (.result emptyResult), .reject "connect ECONNREFUSED"]).result
      = .err "connect ECONNREFUSED" ∧
    (initializeClient freshClient
        [.ok (some "sess") (.result emptyResult), .reject "connect ECONNREFUSED"]).state.initialized
      = true ∧
    (sendRequest "tools/call" "p" freshClient
        [.ok (some "sess") (.result emptyResult), .reject "connect ECONNREFUSED"]).result
      = .err "connect ECONNREFUSED" := by
  refine ⟨rfl, rfl, rfl⟩

/-- Claim C4 (amended).  The `initialized` flag is set before the
`notifications/initialized` notification is posted, so the state transition
to Initialized completes regardless of the notification's fate; but the
notification is awaited, and a rejected notification POST propagates as a
failure of the initialize operation, while a resolved notification POST lets
it succeed. -/
theorem initialized_notification_awaited :
    (∀ (st : ClientState) (hdrI : Option String) (rI : McpResult) (m : String)
        (rest : List PostOutcome),
      (initializeClient st (.ok hdrI (.result rI) :: .reject m :: rest)).result = .err m ∧
      (initializeClient st (.ok hdrI (.result rI) :: .reject m :: rest)).state.initialized
        = true) ∧
    (∀ (st : ClientState) (hdrI : Option String) (rI : McpResult) (hdrN : Option String)
        (dN : McpData) (rest : List PostOutcome),
      (initializeClient st (.ok hdrI (.result rI) :: .ok hdrN dN :: rest)).result = .ok ∧
      (initializeClient st (.ok hdrI (.result rI) :: .ok hdrN dN :: rest)).state.initialized
        = true) := by
  constructor
  · intro st hdrI rI m rest
    rw [initializeClient_notifFail]
    exact ⟨rfl, rfl⟩
  · intro st hdrI rI hdrN dN rest
    rw [initializeClient_ok]
    exact ⟨rfl, rfl⟩

/-- Claim C5 (counterexample).  The claim describes the single-response SSE
parser as stripping the `data:` prefix and concatenating the remainders
before the JSON parse.  False: each remainder is individually trimmed first,
which changes the parsed value when a JSON string spans multiple `data:`
lines — on `data: "a\ndata: b"` the code parses `"ab"`, while parsing the
raw concatenation of the remainders would give `"a b"`. -/
theorem sse_response_parse_raw_concat_false :
    parseSSEResponse "data: \"a\ndata: b\"" = .ok (.str "ab") ∧
    jsonParse (concatStrings (rawDataRemainders "data: \"a\ndata: b\"")) = some (.str "a b") ∧
    Json.str "ab" ≠ Json.str "a b" := by
  refine ⟨rfl, rfl, ?_⟩
  intro h
  injection h with h2
  exact absurd h2 (by decide)

/-- Claim C5 (amended).  For every 2xx `text/event-stream` POST response body,
the client extracts all lines beginning with `data:`, strips that prefix and
trims each remainder, concatenates the trimmed remainders and parses the
result as one JSON document; the scenario body yields the full JSON-RPC
envelope with result `ok: true`, and a body with no `data:` line fails with
the transport error. -/
theorem sse_response_parse_amended :
    (∀ s : String, parseSSEResponse s =
      if (trimmedDataRemainders s).isEmpty then
        .error ("No data lines found in SSE response: " ++ jsTake s 200)
      else
        match jsonParse (concatStrings (trimmedDataRemainders s)) with
        | some v => .ok v
        | none => .error "Failed to parse response") ∧
    parseSSEResponse "data: \x7b\"jsonrpc\":\"2.0\",\"id\":\"1\",\"result\":\x7b\"ok\":true\x7d\x7d\n\n"
      = .ok (.obj [("jsonrpc", .str "2.0"), ("id", .str "1"),
          ("result", .obj [("ok", .bool true)])]) ∧
    jsonGet (.obj [("jsonrpc", .str "2.0"), ("id", .str "1"),
        ("result", .obj [("ok", .bool true)])]) "result"
      = some (.obj [("ok", .bool true)]) ∧
    parseSSEResponse "event: ping\n\n"
      = .error "No data lines found in SSE response: event: ping\n\n" := by
  refine ⟨?_, rfl, rfl, rfl⟩
  intro s
  simp only [parseSSEResponse, sseResponseDataLines_eq_trimmed, join_eq_concatStrings]
  by_cases h : trimmedDataRemainders s = [] <;>
    simp [h, List.length_eq_zero]

/-- Claim C8 (counterexample).  The claim says the default timeout of
`httpRequestRaw` is on the order of 2 minutes (~120 seconds).  False: with
no explicit timeout the request uses 30000 ms (30 seconds). -/
theorem raw_timeout_default_not_two_minutes :
    httpRequestRawTimeout none = 30000 ∧ httpRequestRawTimeout none ≠ 120000 := by
  exact ⟨rfl, by decide⟩

/-- Claim C8 (amended).  The default timeout of `httpRequestRaw` is 30000 ms
(30 seconds); an explicit `timeoutMs` overrides it, and the file-transfer
callers `downloadPlanFile` and `uploadPlanFile` explicitly pass 120000 ms
(~2 minutes). -/
theorem raw_timeout_default_thirty_seconds :
    httpRequestRawTimeout none = 30000 ∧
    (∀ t : Nat, httpRequestRawTimeout (some t) = t) ∧
    downloadPlanFileTimeoutMs = 120000 ∧
    uploadPlanFileTimeoutMs = 120000 := by
  exact ⟨rfl, fun t => rfl, rfl, rfl⟩

/-- Claim C10 (confirmed).  In both the single-response SSE parser and the
streaming frame handler, the remainder of each `data:` line is individually
whitespace-trimmed before the remainders are joined, so the string handed to
the JSON parser is the concatenation of the trimmed per-line fragments, not
the raw concatenation — witnessed by a multi-line event where the two
differ. -/
theorem sse_data_lines_individually_trimmed :
    (∀ s : String, sseResponseDataLines s = trimmedDataRemainders s) ∧
    (∀ s : String, handleSSEEventDataPayload s = concatStrings (trimmedDataRemainders s)) ∧
    handleSSEEventDataPayload "data: \"a\ndata: b\"" = "\"ab\"" ∧
    concatStrings (rawDataRemainders "data: \"a\ndata: b\"") = " \"a b\"" ∧
    ("\"ab\"" : String) ≠ " \"a b\"" := by
  refine ⟨sseResponseDataLines_eq_trimmed, handleSSEEventDataPayload_eq_trimmed, rfl, rfl,
    by decide⟩

/-- Claim C6 (counterexample).  The claim says that for *every* response
carrying `isError: true` the call rejects with the extracted text.  False
when that text contains `HTTP 404`: the thrown tool error is misclassified
by the dispatcher's catch block as session loss, the client recovers and
retries, and a successful retry *resolves* the promise — here the result
`isError: true` with text `HTTP 404: gone` yields a resolved call returning
the retried response's result, not a rejection with that text. -/
theorem tool_error_http404_resolves_instead_of_rejecting :
    getToolErrorText (some ⟨true, [⟨"text", some "HTTP 404: gone"⟩]⟩)
      = some "HTTP 404: gone" ∧
    (sendRequest "tools/call" "p" (ClientState.mk (some "sess-a") true true false [] false)
        [.ok none (.result ⟨true, [⟨"text", some "HTTP 404: gone"⟩]⟩),
         .ok (some "sess-b") (.result emptyResult), .ok none (.result emptyResult),
         .ok none (.result emptyResult)]).result = .ok emptyResult ∧
    (CallResult.ok emptyResult ≠ .err "HTTP 404: gone") := by
  refine ⟨rfl, rfl, by decide⟩

/-- Claim C6 (amended).  When a response has no top-level JSON-RPC error but
its `result` carries `isError: true`, the call rejects with the text of the
first content element of type `text` when that text is non-empty, and with
the generic fallback when the text is empty or missing — *provided* the
extracted text does not contain `HTTP 404`; a text containing `HTTP 404` is
instead misclassified as session loss and triggers recovery and a retry
(claim C9).  In particular the scenario result `Plan not found` rejects the
call with exactly that message and the retry oracle is left untouched. -/
theorem tool_error_text_rejection :
    (∀ (st : ClientState) (m : String) (p : Params) (hdr : Option String) (r : McpResult)
        (t : String) (rest : List PostOutcome),
      st.initialized = true → getToolErrorText (some r) = some t →
      strIncludes t "HTTP 404" = false →
      (sendRequest m p st (.ok hdr (.result r) :: rest)).result = .err t ∧
      (sendRequest m p st (.ok hdr (.result r) :: rest)).oracle = rest) ∧
    getToolErrorText (some ⟨true, [⟨"text", some "Plan not found"⟩]⟩) = some "Plan not found" ∧
    getToolErrorText (some ⟨true, [⟨"text", some ""⟩]⟩) = some "MCP tool returned an error" ∧
    getToolErrorText (some ⟨true, [⟨"text", none⟩]⟩) = some "MCP tool returned an error" ∧
    getToolErrorText (some ⟨true, []⟩) = some "MCP tool returned an error" ∧
    getToolErrorText (some ⟨false, [⟨"text", some "fine"⟩]⟩) = none ∧
    (sendRequest "tools/call" "p" liveClientExample
        [.ok none (.result ⟨true, [⟨"text", some "Plan not found"⟩]⟩)]).result
      = .err "Plan not found" := by
  refine ⟨?_, rfl, rfl, rfl, rfl, rfl, rfl⟩
  intro st m p hdr r t rest hinit ht h404
  have hs := isSessionError_not404 t h404
  rw [sendRequest, sendRequestInternal_true, sendRequestBody_skip_handshake _ _ _ _ _ hinit]
  constructor <;>
    simp [sendRequestCore, httpPost, ht, catchBlock_not_session _ _ _ _ hs, StepOut.withTrace]

/-- Claim C6 witness for the amended theorem, discharging the hypotheses of
the universally quantified part at a concrete input. -/
theorem tool_error_text_rejection_witness :
    (sendRequest "tools/call" "q" (ClientState.mk (some "s") true true false [] false)
        [.ok none (.result ⟨true, [⟨"text", some "Nope"⟩]⟩), .reject "unused"]).result
      = .err "Nope" :=
  (tool_error_text_rejection.1 (ClientState.mk (some "s") true true false [] false)
    "tools/call" "q" none ⟨true, [⟨"text", some "Nope"⟩]⟩ "Nope" [.reject "unused"]
    rfl rfl rfl).1

/-- Claim C9 (confirmed).  A 2xx response whose `result` carries
`isError: true` with extracted text containing `HTTP 404` is a tool-level
failure, not a session loss; yet the thrown tool error is caught by the
dispatcher's own catch block, classified by `isSessionError` as session
loss, and the client runs one recovery cycle and re-issues the request once
— shown by the recovery count of 1 and the two POSTs of the same
method/params, with the retried response's result returned. -/
theorem tool_error_http404_misclassified (st : ClientState) (m : String) (p : Params)
    (hdr : Option String) (r : McpResult) (t : String)
    (hdr2 : Option String) (r2 : McpResult) (hdrN : Option String) (dN : McpData)
    (hdr5 : Option String) (r5 : McpResult) (rest : List PostOutcome)
    (hinit : st.initialized = true) (hrec : st.recoveringSession = false)
    (ht : getToolErrorText (some r) = some t)
    (h404 : strIncludes t "HTTP 404" = true)
    (hr5 : getToolErrorText (some r5) = none) :
    (sendRequest m p st (.ok hdr (.result r) :: .ok hdr2 (.result r2) :: .ok hdrN dN
        :: .ok hdr5 (.result r5) :: rest)).result = .ok r5 ∧
    countRecoveries (sendRequest m p st (.ok hdr (.result r) :: .ok hdr2 (.result r2)
        :: .ok hdrN dN :: .ok hdr5 (.result r5) :: rest)).trace = 1 ∧
    countPosts (sendRequest m p st (.ok hdr (.result r) :: .ok hdr2 (.result r2)
        :: .ok hdrN dN :: .ok hdr5 (.result r5) :: rest)).trace .rand m p = 2 ∧
    (sendRequest m p st (.ok hdr (.result r) :: .ok hdr2 (.result r2) :: .ok hdrN dN
        :: .ok hdr5 (.result r5) :: rest)).oracle = rest := by
  have hcapTr := captureSession_trace st hdr
  have hcaprec : (captureSession st hdr).1.recoveringSession = false := by
    rw [captureSession_recovering]
    exact hrec
  obtain ⟨hRres, hRinit, hRrec, hRor, hRcnt, hRposts⟩ :=
    recoverSession_ok (captureSession st hdr).1 hdr2 r2 hdrN dN
      (.ok hdr5 (.result r5) :: rest) hcaprec
  have hs := isSessionError_404 t h404
  have hcapTr5 := captureSession_trace (recoverSession (captureSession st hdr).1
    (.ok hdr2 (.result r2) :: .ok hdrN dN :: .ok hdr5 (.result r5) :: rest)).state hdr5
  rw [sendRequest, sendRequestInternal_true, sendRequestBody_skip_handshake _ _ _ _ _ hinit]
  refine ⟨?_, ?_, ?_, ?_⟩ <;>
    simp [sendRequestCore, httpPost, ht, hr5, catchBlock_retry _ _ _ _ hs hRres, hRor,
      sendRequestBody_skip_handshake _ _ _ _ _ hRinit,
      StepOut.withTrace, countRecoveries, countPosts, hRcnt, hRposts,
      countRecoveries_sseStarts hcapTr, countPosts_sseStarts hcapTr,
      countRecoveries_sseStarts hcapTr5, countPosts_sseStarts hcapTr5]

/-- Claim C9 witness discharging the hypotheses at a concrete input: the first
response is a tool-call error `HTTP 404: plan missing` on a 2xx response;
the client nevertheless recovers and retries, and the retried call's result
is returned. -/
theorem tool_error_http404_misclassified_witness :
    (sendRequest "tools/call" "p" (ClientState.mk (some "s1") true true false [] false)
        [.ok none (.result ⟨true, [⟨"text", some "HTTP 404: plan missing"⟩]⟩),
         .ok (some "s2") (.result emptyResult), .ok none (.result emptyResult),
         .ok none (.result emptyResult)]).result = .ok emptyResult ∧
    countRecoveries (sendRequest "tools/call" "p"
        (ClientState.mk (some "s1") true true false [] false)
        [.ok none (.result ⟨true, [⟨"text", some "HTTP 404: plan missing"⟩]⟩),
         .ok (some "s2") (.result emptyResult), .ok none (.result emptyResult),
         .ok none (.result emptyResult)]).trace = 1 :=
  have h := tool_error_http404_misclassified
    (ClientState.mk (some "s1") true true false [] false) "tools/call" "p"
    none ⟨true, [⟨"text", some "HTTP 404: plan missing"⟩]⟩ "HTTP 404: plan missing"
    (some "s2") emptyResult none (.result emptyResult) none emptyResult []
    rfl rfl rfl rfl rfl
  ⟨h.1, h.2.1⟩

/-- Claim C1 (confirmed).  A request whose response bears the session-error
signature (a transport rejection mentioning `HTTP 404`, or a JSON-RPC error
containing `session not found` case-insensitively) triggers exactly one
recovery cycle and exactly one re-issue of the same method and params; when
the retried request fails with the same session-error signature, the failure
is surfaced to the caller (with the failing outcome's message) with no
second recovery and no second retry — the trace holds one recovery and two
POSTs of the request, and the oracle beyond the retried response is never
consumed. -/
theorem session_error_triggers_single_retry (m : String) (p : Params) (st : ClientState)
    (o1 o4 : PostOutcome) (hdr2 : Option String) (r2 : McpResult)
    (hdrN : Option String) (dN : McpData) (rest : List PostOutcome)
    (hinit : st.initialized = true) (hrec : st.recoveringSession = false)
    (h1 : sessionErrorOutcome o1 = true) (h4 : sessionErrorOutcome o4 = true) :
    (sendRequest m p st (o1 :: .ok hdr2 (.result r2) :: .ok hdrN dN :: o4 :: rest)).result
      = .err (outcomeFailureMessage o4) ∧
    countRecoveries (sendRequest m p st
        (o1 :: .ok hdr2 (.result r2) :: .ok hdrN dN :: o4 :: rest)).trace = 1 ∧
    countPosts (sendRequest m p st
        (o1 :: .ok hdr2 (.result r2) :: .ok hdrN dN :: o4 :: rest)).trace .rand m p = 2 ∧
    (sendRequest m p st (o1 :: .ok hdr2 (.result r2) :: .ok hdrN dN :: o4 :: rest)).oracle
      = rest := by
  rw [sendRequest, sendRequestInternal_true, sendRequestBody_skip_handshake _ _ _ _ _ hinit]
  match o1 with
  | .reject m1 =>
    simp only [sessionErrorOutcome] at h1
    have hs := isSessionError_404 m1 h1
    obtain ⟨hRres, hRinit, hRrec, hRor, hRcnt, hRposts⟩ :=
      recoverSession_ok st hdr2 r2 hdrN dN (o4 :: rest) hrec
    obtain ⟨hF1, hF2, hF3, hF4⟩ :=
      sendRequestBody_noRetry_fail m p
        (recoverSession st (.ok hdr2 (.result r2) :: .ok hdrN dN :: o4 :: rest)).state
        o4 rest hRinit h4
    refine ⟨?_, ?_, ?_, ?_⟩ <;>
      simp [sendRequestCore, httpPost, catchBlock_retry _ _ _ _ hs hRres, hRor,
        StepOut.withTrace, countRecoveries, countPosts, hRcnt, hRposts,
        hF1, hF2, hF3, hF4]
  | .ok hdr1 (.error msg1) =>
    simp only [sessionErrorOutcome] at h1
    have hs := isSessionError_sessionNotFound msg1 h1
    have hcapTr := captureSession_trace st hdr1
    have hcaprec : (captureSession st hdr1).1.recoveringSession = false := by
      rw [captureSession_recovering]
      exact hrec
    obtain ⟨hRres, hRinit, hRrec, hRor, hRcnt, hRposts⟩ :=
      recoverSession_ok (captureSession st hdr1).1 hdr2 r2 hdrN dN (o4 :: rest) hcaprec
    obtain ⟨hF1, hF2, hF3, hF4⟩ :=
      sendRequestBody_noRetry_fail m p
        (recoverSession (captureSession st hdr1).1
          (.ok hdr2 (.result r2) :: .ok hdrN dN :: o4 :: rest)).state
        o4 rest hRinit h4
    refine ⟨?_, ?_, ?_, ?_⟩ <;>
      simp [sendRequestCore, httpPost, hs, hRres, hRor, StepOut.withTrace,
        countRecoveries, countPosts, hRcnt, hRposts, hF1, hF2, hF3, hF4,
        countRecoveries_sseStarts hcapTr, countPosts_sseStarts hcapTr]
  | .ok hdr1 (.result r1) =>
    simp [sessionErrorOutcome] at h1

/-- Claim C1 witness discharging the hypotheses at a concrete input: a 404
transport failure, a successful recovery handshake, and a retried request
that fails with the JSON-RPC `Session not found` signature; the second
failure is surfaced and only one recovery ran. -/
theorem session_error_triggers_single_retry_witness :
    (sendRequest "resources/read" "uri" (ClientState.mk (some "s1") true true false [] false)
        [.reject "HTTP 404: Not Found", .ok (some "s2") (.result emptyResult),
         .ok none (.result emptyResult), .ok none (.error "Session not found")]).result
      = .err "Session not found" ∧
    countRecoveries (sendRequest "resources/read" "uri"
        (ClientState.mk (some "s1") true true false [] false)
        [.reject "HTTP 404: Not Found", .ok (some "s2") (.result emptyResult),
         .ok none (.result emptyResult), .ok none (.error "Session not found")]).trace = 1 ∧
    countPosts (sendRequest "resources/read" "uri"
        (ClientState.mk (some "s1") true true false [] false)
        [.reject "HTTP 404: Not Found", .ok (some "s2") (.result emptyResult),
         .ok none (.result emptyResult), .ok none (.error "Session not found")]).trace
      .rand "resources/read" "uri" = 2 :=
  have h := session_error_triggers_single_retry "resources/read" "uri"
    (ClientState.mk (some "s1") true true false [] false)
    (.reject "HTTP 404: Not Found") (.ok none (.error "Session not found"))
    (some "s2") emptyResult none (.result emptyResult) []
    rfl rfl rfl rfl
  ⟨h.1, h.2.1, h.2.2.1⟩

/-- Claim C7 (confirmed).  For a sequence of requests issued from a fresh
client (no session, not initialized), the initialize handshake is performed
exactly once, and its POST is the very first event of the whole run — so its
completion precedes the posting of every business request; and when the
requested method is itself `initialize`, no separate handshake is performed
first (no `init-1` POST appears at all). -/
theorem handshake_once_before_business :
    (∀ (m : String) (p : Params) (reqs : List (String × Params)) (hdrI : Option String)
        (rI : McpResult) (hdrN : Option String) (dN : McpData) (oB : PostOutcome)
        (orest : List PostOutcome),
      m ≠ "initialize" → healthyOutcome oB = true →
      (∀ o ∈ orest, healthyOutcome o = true) → orest.length = reqs.length →
      countInitPosts (runRequests freshClient
          (.ok hdrI (.result rI) :: .ok hdrN dN :: oB :: orest) ((m, p) :: reqs)).2.2 = 1 ∧
      (runRequests freshClient (.ok hdrI (.result rI) :: .ok hdrN dN :: oB :: orest)
          ((m, p) :: reqs)).2.2.head? = some (.post .init1 "initialize" initializeParams)) ∧
    (∀ (p : Params) (hdr : Option String) (r : McpResult) (rest : List PostOutcome),
      getToolErrorText (some r) = none →
      (sendRequest "initialize" p freshClient (.ok hdr (.result r) :: rest)).result = .ok r ∧
      countInitPosts (sendRequest "initialize" p freshClient
          (.ok hdr (.result r) :: rest)).trace = 0) := by
  constructor
  · intro m p reqs hdrI rI hdrN dN oB orest hm hB hh hlen
    obtain ⟨hdrB, rB, rfl, hrB⟩ := healthyOutcome_shape oB hB
    have hInitEq := initializeClient_ok freshClient hdrI rI hdrN dN
      (.ok hdrB (.result rB) :: orest)
    have hTrI := initCaptureSession_trace freshClient hdrI
    have hTrB := captureSession_trace
      { (initCaptureSession freshClient hdrI).1 with initialized := true } hdrB
    have ihc := runRequests_healthy reqs
      (captureSession { (initCaptureSession freshClient hdrI).1 with initialized := true }
        hdrB).1 orest
      (by rw [captureSession_initialized])
      hh hlen
    constructor <;>
      simp [runRequests, sendRequest, sendRequestInternal_true, sendRequestBody,
        freshClient_initialized, hm, hInitEq,
        sendRequestCore_healthy m p (some (sendRequestBody m p none))
          { (initCaptureSession freshClient hdrI).1 with initialized := true } hdrB rB orest hrB,
        StepOut.withTrace, countInitPosts, ihc, countInitPosts_sseStarts hTrI,
        countInitPosts_sseStarts hTrB]
  · intro p hdr r rest hr
    have hTr := captureSession_trace freshClient hdr
    constructor <;>
      simp [sendRequest, sendRequestInternal_true, sendRequestBody, freshClient_initialized,
        sendRequestCore_healthy "initialize" p (some (sendRequestBody "initialize" p none))
          freshClient hdr r rest hr,
        countInitPosts, countInitPosts_sseStarts hTr]

/-- Claim C7 witness discharging the hypotheses at concrete inputs: two
business requests from a fresh client against an all-successful oracle, and
one direct `initialize` request. -/
theorem handshake_once_before_business_witness :
    countInitPosts (runRequests freshClient
        [.ok (some "abc123") (.result emptyResult), .ok none (.result emptyResult),
         .ok none (.result emptyResult), .ok none (.result emptyResult)]
        [("tools/call", "a"), ("resources/read", "b")]).2.2 = 1 ∧
    (runRequests freshClient
        [.ok (some "abc123") (.result emptyResult), .ok none (.result emptyResult),
         .ok none (.result emptyResult), .ok none (.result emptyResult)]
        [("tools/call", "a"), ("resources/read", "b")]).2.2.head?
      = some (.post .init1 "initialize" initializeParams) ∧
    (sendRequest "initialize" "x" freshClient [.ok (some "s") (.result emptyResult)]).result
      = .ok emptyResult :=
  have h1 := handshake_once_before_business.1 "tools/call" "a" [("resources/read", "b")]
    (some "abc123") emptyResult none (.result emptyResult) (.ok none (.result emptyResult))
    [.ok none (.result emptyResult)] (by decide) rfl (by decide) rfl
  have h2 := handshake_once_before_business.2 "x" (some "s") emptyResult [] rfl
  ⟨h1.1, h1.2, h2.1⟩

end RiotPlan
